import Mathlib

/-!
Shallow embedding of the vulkano-test repository (src/main.rs, src/renderer.rs).

The renderer (src/renderer.rs) is modelled as an explicit state machine.
GPU-driver outcomes that the code merely reacts to (swapchain recreation
result, image acquisition result, fence-and-flush result, the window's
current inner size) are inputs of each tick, collected in a `TickEnv`
record.  Rust panics (the various `unwrap`/`panic!` sites) are modelled by
an `Except RPanic` result.  `f32` scalars are modelled by `ℚ`.  Boxed
`GpuFuture` objects are modelled by a tagged value carrying a fresh
numeric identity, so that "same object" is expressible; the renderer state
carries the next fresh identity.
-/

/-- Per-instance vertex data, from struct InstanceData in src/renderer.rs. -/
structure InstanceData where
  pos_offset : ℚ × ℚ
  angle : ℚ
  scale : ℚ
deriving DecidableEq

/-- A swapchain, reduced to the data the claims speak about: its dimensions. -/
structure SwapchainT where
  dimensions : ℕ × ℕ
deriving DecidableEq

/-- A swapchain image; its dimensions are fixed at (re)creation time. -/
structure SwapchainImageT where
  dimensions : ℕ × ℕ
deriving DecidableEq

/-- A framebuffer built on one swapchain image (one color attachment). -/
structure FramebufferT where
  dimensions : ℕ × ℕ
deriving DecidableEq

/-- The dynamic viewport recorded into DynamicState by
window_size_dependent_setup. -/
structure ViewportT where
  origin : ℚ × ℚ
  dimensions : ℚ × ℚ
  depth_range : ℚ × ℚ
deriving DecidableEq

/-- A boxed GpuFuture value.  `now` is sync::now(device) (an already
complete no-op future); `fenceSignal` is the future returned by
then_signal_fence_and_flush for a submitted frame.  The `id` field models
object identity: every future the renderer ever stores gets a fresh id. -/
inductive GpuFutureT
  | now (id : ℕ)
  | fenceSignal (id : ℕ)
deriving DecidableEq

/-- The numeric identity of a future value. -/
def GpuFutureT.futId : GpuFutureT → ℕ
  | .now i => i
  | .fenceSignal i => i

/-- Driver outcome of Swapchain::recreate_with_dimensions.  On success the
driver hands back `imageCount` images sized to the requested dimensions. -/
inductive SwapchainCreationResult
  | ok (imageCount : ℕ)
  | unsupportedDimensions
  | otherError
deriving DecidableEq

/-- Driver outcome of swapchain::acquire_next_image. -/
inductive AcquireResult
  | ok (image_num : ℕ) (suboptimal : Bool)
  | outOfDate
  | otherError
deriving DecidableEq

/-- Driver outcome of then_signal_fence_and_flush. -/
inductive FlushResult
  | ok
  | outOfDate
  | otherError
deriving DecidableEq

/-- The environment of one redraw tick: the window's current inner size
and the driver outcomes the code would observe on this tick. -/
structure TickEnv where
  inner_size : ℕ × ℕ
  recreateResult : SwapchainCreationResult
  acquireResult : AcquireResult
  flushResult : FlushResult
deriving DecidableEq

/-- The Rust panic sites reachable from Renderer::redraw /
Renderer::recreate_swapchain. -/
inductive RPanic
  | noneUnwrap
  | recreateFailed
  | emptyImages
  | acquireFailed
  | badImageIndex
deriving DecidableEq

/-- Renderer state, from struct Renderer in src/renderer.rs, restricted to
the fields the claims are about.  `nextFutureId` is the modelling artifact
supplying fresh identities for stored futures. -/
structure Renderer where
  swapchain : SwapchainT
  images : List SwapchainImageT
  viewports : Option ViewportT
  framebuffers : List FramebufferT
  recreate_swapchain : Bool
  previous_frame_end : Option GpuFutureT
  nextFutureId : ℕ
deriving DecidableEq

/-- window_size_dependent_setup from src/renderer.rs: reads
images[0].dimensions() (a panic when the image list is empty, hence the
Option), sets the single dynamic viewport to those dimensions, and builds
one framebuffer per image. -/
def window_size_dependent_setup (images : List SwapchainImageT) :
    Option (ViewportT × List FramebufferT) :=
  match images with
  | [] => none
  | img0 :: _ =>
    let dimensions := img0.dimensions
    let viewport : ViewportT :=
      { origin := (0, 0),
        dimensions := ((dimensions.1 : ℚ), (dimensions.2 : ℚ)),
        depth_range := (0, 1) }
    some (viewport, images.map fun image => { dimensions := image.dimensions })

/-- Renderer::new, reduced to the modelled fields: the swapchain and its
`imageCount` images take the window's inner size, framebuffers and the
viewport come from window_size_dependent_setup, the recreate flag starts
false and previous_frame_end starts as Some(sync::now(device)). -/
def Renderer.new (inner_size : ℕ × ℕ) (imageCount : ℕ) : Option Renderer :=
  let images := List.replicate imageCount (SwapchainImageT.mk inner_size)
  match window_size_dependent_setup images with
  | none => none
  | some (vp, fbs) =>
    some { swapchain := { dimensions := inner_size },
           images := images,
           viewports := some vp,
           framebuffers := fbs,
           recreate_swapchain := false,
           previous_frame_end := some (GpuFutureT.now 0),
           nextFutureId := 1 }

/-- Renderer::recreate_swapchain from src/renderer.rs.  Reads the window's
inner size, calls recreate_with_dimensions; on UnsupportedDimensions it
returns early leaving the whole state (including the flag) untouched; any
other creation error panics; on success it installs the new swapchain and
images, rebuilds framebuffers and viewport via window_size_dependent_setup
and clears the flag. -/
def Renderer.recreateSwapchain (st : Renderer) (env : TickEnv) :
    Except RPanic Renderer :=
  let dimensions := env.inner_size
  match env.recreateResult with
  | .unsupportedDimensions => .ok st
  | .otherError => .error .recreateFailed
  | .ok imageCount =>
    let new_images := List.replicate imageCount (SwapchainImageT.mk dimensions)
    match window_size_dependent_setup new_images with
    | none => .error .emptyImages
    | some (vp, fbs) =>
      .ok { st with
            swapchain := { dimensions := dimensions },
            images := new_images,
            viewports := some vp,
            framebuffers := fbs,
            recreate_swapchain := false }

/-- One recorded command of the per-frame command buffer. -/
inductive Cmd
  | begin_render_pass (image_num : ℕ) (clear_values : List ℚ)
  | draw (instances : ℕ)
  | end_render_pass
deriving DecidableEq

/-- Observable actions of one redraw call: instance-buffer uploads (by
instance count), the recorded command sequence, whether a command buffer
was submitted and a present enqueued, and whether a flush error was
logged. -/
structure FrameTrace where
  uploads : List ℕ
  commands : List Cmd
  submitted : Bool
  presented : Option ℕ
  loggedFlushError : Bool
deriving DecidableEq

/-- The trace of a dropped frame: nothing uploaded, recorded, submitted,
presented or logged. -/
def FrameTrace.empty : FrameTrace :=
  { uploads := [], commands := [], submitted := false,
    presented := none, loggedFlushError := false }

/-- The conditional recreate step at the top of redraw (lines 265-268 of
src/renderer.rs). -/
def Renderer.maybeRecreate (st : Renderer) (env : TickEnv) :
    Except RPanic Renderer :=
  if st.recreate_swapchain then st.recreateSwapchain env else .ok st

/-- Lines 310-379 of src/renderer.rs: instance-buffer upload, command
recording (begin_render_pass on framebuffers[image_num] — a panic when the
index is out of range — clear to opaque black, one draw whose instance
count is the length of the uploaded batch, end_render_pass), submission
joined on the previous-frame future and the acquire future, presentation
of the same image index, and the fence-and-flush outcome that decides the
stored future. -/
def Renderer.submitAndFlush (st2 : Renderer) (env : TickEnv)
    (data : List InstanceData) (image_num : ℕ) :
    Except RPanic (Renderer × FrameTrace) :=
  if image_num < st2.framebuffers.length then
    let commands : List Cmd :=
      [Cmd.begin_render_pass image_num [0, 0, 0, 1],
       Cmd.draw data.length,
       Cmd.end_render_pass]
    let tr : FrameTrace :=
      { uploads := [data.length], commands := commands,
        submitted := true, presented := some image_num,
        loggedFlushError := false }
    let newId := st2.nextFutureId
    match env.flushResult with
    | .ok =>
      .ok ({ st2 with
             previous_frame_end := some (GpuFutureT.fenceSignal newId),
             nextFutureId := newId + 1 }, tr)
    | .outOfDate =>
      .ok ({ st2 with
             recreate_swapchain := true,
             previous_frame_end := some (GpuFutureT.now newId),
             nextFutureId := newId + 1 }, tr)
    | .otherError =>
      .ok ({ st2 with
             previous_frame_end := some (GpuFutureT.now newId),
             nextFutureId := newId + 1 },
           { tr with loggedFlushError := true })
  else .error .badImageIndex

/-- Lines 278-294 of src/renderer.rs: acquire_next_image (OutOfDate sets
the flag and returns from redraw, any other error panics), set the flag on
a suboptimal acquire, then go on to record, submit and flush. -/
def Renderer.afterAcquire (st1 : Renderer) (env : TickEnv)
    (data : List InstanceData) : Except RPanic (Renderer × FrameTrace) :=
  match env.acquireResult with
  | .otherError => .error .acquireFailed
  | .outOfDate =>
    .ok ({ st1 with recreate_swapchain := true }, FrameTrace.empty)
  | .ok image_num suboptimal =>
    let st2 :=
      if suboptimal then { st1 with recreate_swapchain := true } else st1
    st2.submitAndFlush env data image_num

/-- Renderer::redraw from src/renderer.rs, the composition of the phases
above in source order: cleanup_finished on the unwrapped
previous_frame_end (a panic if it were None); if the recreate flag is set,
call recreate_swapchain (note: the UnsupportedDimensions early return in
that method returns only from the method — redraw continues); then
acquire, record, submit, present and flush as in afterAcquire. -/
def Renderer.redraw (st : Renderer) (env : TickEnv) (data : List InstanceData) :
    Except RPanic (Renderer × FrameTrace) :=
  match st.previous_frame_end with
  | none => .error .noneUnwrap
  | some _ =>
    match st.maybeRecreate env with
    | .error p => .error p
    | .ok st1 => st1.afterAcquire env data

/-- Rotation input state, from enum Rot in src/main.rs. -/
inductive Rot
  | Left
  | Right
  | No
deriving DecidableEq

/-- An asteroid, from struct Asteroid in src/main.rs. -/
structure Asteroid where
  x : ℚ
  y : ℚ
  vel_x : ℚ
  vel_y : ℚ
  angle : ℚ
deriving DecidableEq

/-- The game state, from struct State in src/main.rs. -/
structure GameState where
  x : ℚ
  y : ℚ
  vel_x : ℚ
  vel_y : ℚ
  accel : Bool
  angle : ℚ
  rot : Rot
  asteroids : List Asteroid
deriving DecidableEq

/-- The wrap step applied to each position coordinate in update
(src/main.rs): a single conditional correction by 2. -/
def wrap (v : ℚ) : ℚ :=
  if v > 1 then v - 2 else if v < -1 then v + 2 else v

/-- The rotation step at the top of update (src/main.rs lines 62-66):
turn by 5 degrees left or right, or keep the angle. -/
def stepAngle (rot : Rot) (angle : ℚ) : ℚ :=
  match rot with
  | Rot.Left => angle + 5
  | Rot.Right => angle - 5
  | Rot.No => angle

/-- update from src/main.rs, parametrised by the real-function collaborators
to_radians, sin and cos of f32 (abstract, since they are library
transcendentals): turn by 5 degrees according to rot; if accelerating, add
sin/cos of the radian angle times 0.0005 to the velocity; integrate the
ship position by subtracting velocity and wrap each coordinate; integrate
each asteroid position by adding its velocity and wrap likewise. -/
def update (toRad sinq cosq : ℚ → ℚ) (st : GameState) : GameState :=
  let angle := stepAngle st.rot st.angle
  let rad := toRad angle
  let vel_x := if st.accel then st.vel_x + sinq rad * 0.0005 else st.vel_x
  let vel_y := if st.accel then st.vel_y + cosq rad * 0.0005 else st.vel_y
  let x := wrap (st.x - vel_x)
  let y := wrap (st.y - vel_y)
  let asteroids := st.asteroids.map fun a =>
    { a with x := wrap (a.x + a.vel_x), y := wrap (a.y + a.vel_y) }
  { st with angle := angle, x := x, y := y,
            vel_x := vel_x, vel_y := vel_y, asteroids := asteroids }

/-- render from src/main.rs: a ship batch with one instance at the ship's
position and angle with scale 0.05, then an asteroid batch with one
instance per asteroid (scale 0.1), in list order. -/
def render (st : GameState) : List (List InstanceData) :=
  let ships : List InstanceData :=
    [{ pos_offset := (st.x, st.y), angle := st.angle, scale := 0.05 }]
  let asteroids : List InstanceData :=
    st.asteroids.map fun a =>
      { pos_offset := (a.x, a.y), angle := a.angle, scale := 0.1 }
  [ships, asteroids]

/-- Whether an Except result is a success (no Rust panic occurred). -/
def isOkE {α : Type} (e : Except RPanic α) : Bool :=
  match e with
  | .ok _ => true
  | .error _ => false

/-- A concrete renderer state as produced by Renderer::new on an 800x600
window with a 2-image swapchain: used as the starting point of concrete
evaluations. -/
def baseRenderer : Renderer :=
  { swapchain := { dimensions := (800, 600) },
    images := List.replicate 2 { dimensions := (800, 600) },
    viewports := some { origin := (0, 0), dimensions := (800, 600),
                        depth_range := (0, 1) },
    framebuffers := List.replicate 2 { dimensions := (800, 600) },
    recreate_swapchain := false,
    previous_frame_end := some (GpuFutureT.now 0),
    nextFutureId := 1 }

/-- A tick during a live resize: the flag is set, the driver rejects the
new dimensions (UnsupportedDimensions), yet acquisition and flush would
succeed on the old swapchain. -/
def skipTickEnv : TickEnv :=
  { inner_size := (640, 480),
    recreateResult := SwapchainCreationResult.unsupportedDimensions,
    acquireResult := AcquireResult.ok 0 false,
    flushResult := FlushResult.ok }

/-- A tick in which recreation succeeds at 640x480 with 2 images but the
subsequent acquisition reports OutOfDate. -/
def recreateThenOutOfDateEnv : TickEnv :=
  { inner_size := (640, 480),
    recreateResult := SwapchainCreationResult.ok 2,
    acquireResult := AcquireResult.outOfDate,
    flushResult := FlushResult.ok }

/-- A fully successful tick at 800x600: no recreation requested, image 0
acquired without suboptimality, flush succeeds. -/
def normalTickEnv : TickEnv :=
  { inner_size := (800, 600),
    recreateResult := SwapchainCreationResult.ok 2,
    acquireResult := AcquireResult.ok 0 false,
    flushResult := FlushResult.ok }

/-- A game state whose ship sits far outside the [-1,1] board. -/
def farGameState : GameState :=
  { x := 10, y := 0, vel_x := 0, vel_y := 0, accel := false,
    angle := 0, rot := Rot.No, asteroids := [] }

/-- The initial game state of main (src/main.rs lines 117-128). -/
def initGameState : GameState :=
  { x := 0.5, y := 0.5, vel_x := 0, vel_y := 0, accel := false,
    angle := 0, rot := Rot.No,
    asteroids := [{ x := 0, y := 0, vel_x := 0, vel_y := 0, angle := 0 }] }

/-- A tick whose acquisition succeeds but reports suboptimal. -/
def suboptimalTickEnv : TickEnv :=
  { inner_size := (800, 600),
    recreateResult := SwapchainCreationResult.ok 2,
    acquireResult := AcquireResult.ok 0 true,
    flushResult := FlushResult.ok }

/-- A tick whose fence-and-flush step reports OutOfDate. -/
def flushOutOfDateEnv : TickEnv :=
  { inner_size := (800, 600),
    recreateResult := SwapchainCreationResult.ok 2,
    acquireResult := AcquireResult.ok 0 false,
    flushResult := FlushResult.outOfDate }

/-- baseRenderer after a successful recreation at 640x480 with 2 images. -/
def recreated640 : Renderer :=
  { baseRenderer with
    swapchain := { dimensions := (640, 480) },
    images := List.replicate 2 { dimensions := (640, 480) },
    viewports := some { origin := (0, 0), dimensions := (640, 480),
                        depth_range := (0, 1) },
    framebuffers := List.replicate 2 { dimensions := (640, 480) } }

/-- The trace of a successful tick that drew an empty batch into image 0. -/
def normalTrace0 : FrameTrace :=
  { uploads := [0],
    commands := [Cmd.begin_render_pass 0 [0, 0, 0, 1], Cmd.draw 0,
                 Cmd.end_render_pass],
    submitted := true, presented := some 0, loggedFlushError := false }

/-- baseRenderer after the future of a submitted frame was stored. -/
def submittedState : Renderer :=
  { baseRenderer with
    previous_frame_end := some (GpuFutureT.fenceSignal 1),
    nextFutureId := 2 }

/-- maybeRecreate never touches the stored future or the identity
counter, and its result keeps the flag clear when recreation succeeded. -/
theorem maybeRecreate_preserves (st : Renderer) (env : TickEnv)
    (st1 : Renderer) (h : st.maybeRecreate env = .ok st1) :
    st1.previous_frame_end = st.previous_frame_end ∧
      st1.nextFutureId = st.nextFutureId := by
  unfold Renderer.maybeRecreate at h
  split at h
  · unfold Renderer.recreateSwapchain at h
    dsimp only at h
    split at h
    · rw [Except.ok.injEq] at h
      subst h
      exact ⟨rfl, rfl⟩
    · exact absurd h (by simp)
    · split at h
      · exact absurd h (by simp)
      · rw [Except.ok.injEq] at h
        subst h
        exact ⟨rfl, rfl⟩
  · rw [Except.ok.injEq] at h
    subst h
    exact ⟨rfl, rfl⟩

/-- When the recreate flag is clear, maybeRecreate is the identity. -/
theorem maybeRecreate_flag_false (st : Renderer) (env : TickEnv)
    (h : st.recreate_swapchain = false) : st.maybeRecreate env = .ok st := by
  simp [Renderer.maybeRecreate, h]

/-- Successful redraw decomposes into a successful maybeRecreate followed
by a successful afterAcquire, and requires a stored previous-frame
future. -/
theorem redraw_ok_elim (st : Renderer) (env : TickEnv)
    (data : List InstanceData) (st' : Renderer) (tr : FrameTrace)
    (h : st.redraw env data = .ok (st', tr)) :
    (∃ f, st.previous_frame_end = some f) ∧
      ∃ st1, st.maybeRecreate env = .ok st1 ∧
        st1.afterAcquire env data = .ok (st', tr) := by
  unfold Renderer.redraw at h
  split at h
  · exact absurd h (by simp)
  · rename_i f hf
    refine ⟨⟨f, hf⟩, ?_⟩
    split at h
    · exact absurd h (by simp)
    · rename_i st1 heq
      exact ⟨st1, heq, h⟩

/-- afterAcquire on an out-of-date acquisition: set the flag, return a
dropped-frame trace. -/
theorem afterAcquire_outOfDate (st1 : Renderer) (env : TickEnv)
    (data : List InstanceData)
    (h : env.acquireResult = AcquireResult.outOfDate) :
    st1.afterAcquire env data =
      .ok ({ st1 with recreate_swapchain := true }, FrameTrace.empty) := by
  simp [Renderer.afterAcquire, h]

/-- afterAcquire on a successful acquisition reduces to submitAndFlush on
the (possibly suboptimal-flagged) state. -/
theorem afterAcquire_acqOk (st1 : Renderer) (env : TickEnv)
    (data : List InstanceData) (i : ℕ) (sub : Bool)
    (h : env.acquireResult = AcquireResult.ok i sub) :
    st1.afterAcquire env data =
      (if sub then { st1 with recreate_swapchain := true }
       else st1).submitAndFlush env data i := by
  simp [Renderer.afterAcquire, h]

/-- Shape of any successful submitAndFlush: the image index was in range,
the trace uploads one buffer of the batch's length and records exactly
begin-render-pass / one draw with that instance count / end-render-pass,
submits and presents the acquired image; the swapchain, images, viewport
and framebuffers are untouched and the identity counter advances. -/
theorem submitAndFlush_ok_inv (st2 : Renderer) (env : TickEnv)
    (data : List InstanceData) (i : ℕ) (st' : Renderer) (tr : FrameTrace)
    (h : st2.submitAndFlush env data i = .ok (st', tr)) :
    i < st2.framebuffers.length ∧
    tr.uploads = [data.length] ∧
    tr.commands = [Cmd.begin_render_pass i [0, 0, 0, 1],
                   Cmd.draw data.length, Cmd.end_render_pass] ∧
    tr.submitted = true ∧
    tr.presented = some i ∧
    st'.swapchain = st2.swapchain ∧
    st'.images = st2.images ∧
    st'.viewports = st2.viewports ∧
    st'.framebuffers = st2.framebuffers ∧
    st'.nextFutureId = st2.nextFutureId + 1 := by
  unfold Renderer.submitAndFlush at h
  split at h
  · rename_i hlt
    split at h <;>
      · rw [Except.ok.injEq, Prod.mk.injEq] at h
        obtain ⟨h1, h2⟩ := h
        subst h1
        subst h2
        simp_all
  · exact absurd h (by simp)

/-- The stored future after a successful submitAndFlush, by flush
outcome: the fresh fence future on Ok; a fresh sync::now no-op future on
an out-of-date flush (which also sets the recreate flag) and on any other
flush error (which is logged). -/
theorem submitAndFlush_flush_cases (st2 : Renderer) (env : TickEnv)
    (data : List InstanceData) (i : ℕ) (st' : Renderer) (tr : FrameTrace)
    (h : st2.submitAndFlush env data i = .ok (st', tr)) :
    (env.flushResult = FlushResult.ok →
      st'.previous_frame_end =
          some (GpuFutureT.fenceSignal st2.nextFutureId) ∧
        st'.recreate_swapchain = st2.recreate_swapchain ∧
        tr.loggedFlushError = false) ∧
    (env.flushResult = FlushResult.outOfDate →
      st'.previous_frame_end = some (GpuFutureT.now st2.nextFutureId) ∧
        st'.recreate_swapchain = true ∧
        tr.loggedFlushError = false) ∧
    (env.flushResult = FlushResult.otherError →
      st'.previous_frame_end = some (GpuFutureT.now st2.nextFutureId) ∧
        st'.recreate_swapchain = st2.recreate_swapchain ∧
        tr.loggedFlushError = true) := by
  unfold Renderer.submitAndFlush at h
  split at h
  · split at h <;>
      · rw [Except.ok.injEq, Prod.mk.injEq] at h
        obtain ⟨h1, h2⟩ := h
        subst h1
        subst h2
        simp_all
  · exact absurd h (by simp)

/-- submitAndFlush succeeds exactly when the image index is in range,
whatever the flush outcome. -/
theorem isOkE_submitAndFlush (st2 : Renderer) (env : TickEnv)
    (data : List InstanceData) (i : ℕ) :
    isOkE (st2.submitAndFlush env data i) =
      decide (i < st2.framebuffers.length) := by
  unfold Renderer.submitAndFlush
  split
  · rename_i hlt
    cases henv : env.flushResult <;> simp [isOkE, hlt]
  · rename_i hlt
    simp [isOkE]
    omega

/-- redraw with no stored previous-frame future hits the unwrap panic. -/
theorem redraw_none (st : Renderer) (env : TickEnv) (data : List InstanceData)
    (hp : st.previous_frame_end = none) :
    st.redraw env data = .error RPanic.noneUnwrap := by
  unfold Renderer.redraw
  rw [hp]

/-- redraw propagates a recreation panic. -/
theorem redraw_recreate_error (st : Renderer) (env : TickEnv)
    (data : List InstanceData) (f : GpuFutureT) (p : RPanic)
    (hp : st.previous_frame_end = some f)
    (hm : st.maybeRecreate env = .error p) :
    st.redraw env data = .error p := by
  unfold Renderer.redraw
  rw [hp]
  dsimp only
  rw [hm]

/-- After a stored future and a successful maybeRecreate, redraw is
exactly the acquire-and-onwards phase. -/
theorem redraw_eq_afterAcquire (st : Renderer) (env : TickEnv)
    (data : List InstanceData) (f : GpuFutureT) (st1 : Renderer)
    (hp : st.previous_frame_end = some f)
    (hm : st.maybeRecreate env = .ok st1) :
    st.redraw env data = st1.afterAcquire env data := by
  unfold Renderer.redraw
  rw [hp]
  dsimp only
  rw [hm]

/-- The only panics maybeRecreate can raise are the recreation ones. -/
theorem maybeRecreate_error_cases (st : Renderer) (env : TickEnv) (p : RPanic)
    (h : st.maybeRecreate env = .error p) :
    p = RPanic.recreateFailed ∨ p = RPanic.emptyImages := by
  unfold Renderer.maybeRecreate at h
  split at h
  · unfold Renderer.recreateSwapchain at h
    dsimp only at h
    split at h
    · exact absurd h (by simp)
    · rw [Except.error.injEq] at h
      exact Or.inl h.symm
    · split at h
      · rw [Except.error.injEq] at h
        exact Or.inr h.symm
      · exact absurd h (by simp)
  · exact absurd h (by simp)

/-- The only panic the record-submit-flush phase can raise is the
framebuffer-indexing one. -/
theorem submitAndFlush_error_cases (st2 : Renderer) (env : TickEnv)
    (data : List InstanceData) (i : ℕ) (p : RPanic)
    (h : st2.submitAndFlush env data i = .error p) :
    p = RPanic.badImageIndex := by
  unfold Renderer.submitAndFlush at h
  split at h
  · split at h <;> exact absurd h (by simp)
  · rw [Except.error.injEq] at h
    exact h.symm

/-- The only panics the acquire-and-onwards phase can raise are the
acquire panic and the framebuffer-indexing panic. -/
theorem afterAcquire_error_cases (st1 : Renderer) (env : TickEnv)
    (data : List InstanceData) (p : RPanic)
    (h : st1.afterAcquire env data = .error p) :
    p = RPanic.acquireFailed ∨ p = RPanic.badImageIndex := by
  unfold Renderer.afterAcquire at h
  split at h
  · rw [Except.error.injEq] at h
    exact Or.inl h.symm
  · exact absurd h (by simp)
  · exact Or.inr (submitAndFlush_error_cases _ env data _ p h)

/-- Shape of the state after a successful (non-skipped) recreation: the
swapchain, its images, the framebuffers and the dynamic viewport all take
the window size observed at that moment, and the flag is cleared. -/
theorem recreateSwapchain_ok_shape (st : Renderer) (env : TickEnv) (n : ℕ)
    (st1 : Renderer)
    (hn : env.recreateResult = SwapchainCreationResult.ok n)
    (hok : st.recreateSwapchain env = .ok st1) :
    st1.swapchain.dimensions = env.inner_size ∧
    st1.images = List.replicate n { dimensions := env.inner_size } ∧
    st1.framebuffers = List.replicate n { dimensions := env.inner_size } ∧
    st1.viewports =
      some { origin := (0, 0),
             dimensions := ((env.inner_size.1 : ℚ), (env.inner_size.2 : ℚ)),
             depth_range := (0, 1) } ∧
    st1.recreate_swapchain = false ∧
    st1.previous_frame_end = st.previous_frame_end := by
  unfold Renderer.recreateSwapchain at hok
  dsimp only at hok
  rw [hn] at hok
  dsimp only at hok
  cases n with
  | zero =>
    exact absurd hok (by simp [window_size_dependent_setup])
  | succ m =>
    rw [show window_size_dependent_setup
          (List.replicate (m + 1) { dimensions := env.inner_size }) =
        some ({ origin := (0, 0),
                dimensions := ((env.inner_size.1 : ℚ), (env.inner_size.2 : ℚ)),
                depth_range := (0, 1) },
              List.replicate (m + 1) { dimensions := env.inner_size })
        from by
          simp [window_size_dependent_setup, List.replicate_succ,
                List.map_replicate]] at hok
    rw [Except.ok.injEq] at hok
    subst hok
    simp [List.replicate_succ]

/-- The single wrap step lands in [-1,1] whenever its input is within
[-3,3]. -/
theorem wrap_mem_Icc (w : ℚ) (h1 : -3 ≤ w) (h2 : w ≤ 3) :
    -1 ≤ wrap w ∧ wrap w ≤ 1 := by
  unfold wrap
  split_ifs with ha hb <;> constructor <;> linarith

/-- The ship velocity after the optional acceleration step stays within
[-2,2] when it started within [-(2-0.0005), 2-0.0005] and the
trigonometric factor is within [-1,1]. -/
theorem vel_bound (v s : ℚ) (b : Bool)
    (hv1 : -(2 - 1/2000) ≤ v) (hv2 : v ≤ 2 - 1/2000)
    (hs1 : -1 ≤ s) (hs2 : s ≤ 1) :
    -2 ≤ (if b then v + s * 0.0005 else v) ∧
      (if b then v + s * 0.0005 else v) ≤ 2 := by
  have h5 : (0.0005 : ℚ) = 1/2000 := by norm_num
  cases b <;> simp [h5] <;> constructor <;> linarith

/-- Claim C1: evaluation at the failing input.  With the recreate flag set
and recreation reporting the dimensions unsupported (Skip), redraw does
NOT return immediately: the early return in Renderer::recreate_swapchain
only leaves that method, so redraw goes on to acquire image 0 on the prior
swapchain, records and submits commands and presents, while the prior
swapchain and framebuffers and the set flag are indeed left in place. -/
theorem c1_skip_tick_still_draws :
    Renderer.redraw { baseRenderer with recreate_swapchain := true }
        skipTickEnv [] =
      .ok ({ baseRenderer with
             recreate_swapchain := true,
             previous_frame_end := some (GpuFutureT.fenceSignal 1),
             nextFutureId := 2 },
           { uploads := [0],
             commands := [Cmd.begin_render_pass 0 [0, 0, 0, 1], Cmd.draw 0,
                          Cmd.end_render_pass],
             submitted := true, presented := some 0,
             loggedFlushError := false }) := by
  rfl

/-- Claim C2, counterexample to the parenthetical: when the recreate flag
was set on entry and recreation succeeds before the out-of-date
acquisition, the redraw call that drops the frame has still replaced the
swapchain (and framebuffers), so the renderer state other than the flag is
not left unchanged. -/
theorem c2_counterexample_state_changed :
    Renderer.redraw { baseRenderer with recreate_swapchain := true }
        recreateThenOutOfDateEnv [] =
      .ok ({ recreated640 with recreate_swapchain := true },
           FrameTrace.empty) ∧
    ({ recreated640 with recreate_swapchain := true } : Renderer).swapchain ≠
      ({ baseRenderer with recreate_swapchain := true } : Renderer).swapchain := by
  exact ⟨rfl, by decide⟩

/-- Claim C2 (amended): whenever acquisition reports out-of-date, that
redraw call sets the recreate flag, uploads nothing, records nothing,
submits nothing and presents nothing, and keeps the stored previous-frame
future; moreover, if the recreate flag was clear on entry (so no
recreation ran first), the whole renderer state other than the flag is
unchanged. -/
theorem c2_acquire_outOfDate_drops_frame (st : Renderer) (env : TickEnv)
    (data : List InstanceData) (st' : Renderer) (tr : FrameTrace)
    (hacq : env.acquireResult = AcquireResult.outOfDate)
    (hok : st.redraw env data = .ok (st', tr)) :
    st'.recreate_swapchain = true ∧
    tr = FrameTrace.empty ∧
    st'.previous_frame_end = st.previous_frame_end ∧
    (st.recreate_swapchain = false →
      st' = { st with recreate_swapchain := true }) := by
  obtain ⟨⟨f, hf⟩, st1, hrec, hafter⟩ := redraw_ok_elim st env data st' tr hok
  rw [afterAcquire_outOfDate st1 env data hacq, Except.ok.injEq,
      Prod.mk.injEq] at hafter
  obtain ⟨h1, h2⟩ := hafter
  obtain ⟨hprev, -⟩ := maybeRecreate_preserves st env st1 hrec
  subst h1
  subst h2
  refine ⟨rfl, rfl, hprev, ?_⟩
  intro hflag
  rw [maybeRecreate_flag_false st env hflag, Except.ok.injEq] at hrec
  subst hrec
  rfl

/-- Witness for claim C2's amended theorem at a concrete input. -/
theorem c2_witness :
    ({ baseRenderer with recreate_swapchain := true } : Renderer).recreate_swapchain
        = true ∧
    FrameTrace.empty = FrameTrace.empty ∧
    ({ baseRenderer with recreate_swapchain := true } : Renderer).previous_frame_end
        = baseRenderer.previous_frame_end ∧
    (baseRenderer.recreate_swapchain = false →
      ({ baseRenderer with recreate_swapchain := true } : Renderer) =
        { baseRenderer with recreate_swapchain := true }) :=
  c2_acquire_outOfDate_drops_frame baseRenderer recreateThenOutOfDateEnv []
    { baseRenderer with recreate_swapchain := true } FrameTrace.empty rfl
    (by rfl)

/-- Claim C3: whenever a redraw call acquires an image, its recorded
command sequence is exactly begin-render-pass on the acquired image / one
draw whose instance count equals the length of the input batch /
end-render-pass, and exactly one instance buffer of that length was
uploaded; a zero-length batch yields a draw with zero instances and no
error. -/
theorem c3_one_draw_instance_count (st : Renderer) (env : TickEnv)
    (data : List InstanceData) (st' : Renderer) (tr : FrameTrace)
    (i : ℕ) (sub : Bool)
    (hacq : env.acquireResult = AcquireResult.ok i sub)
    (hok : st.redraw env data = .ok (st', tr)) :
    tr.uploads = [data.length] ∧
    tr.commands = [Cmd.begin_render_pass i [0, 0, 0, 1],
                   Cmd.draw data.length, Cmd.end_render_pass] := by
  obtain ⟨-, st1, -, hafter⟩ := redraw_ok_elim st env data st' tr hok
  rw [afterAcquire_acqOk st1 env data i sub hacq] at hafter
  obtain ⟨-, h2, h3, -⟩ := submitAndFlush_ok_inv _ env data i st' tr hafter
  exact ⟨h2, h3⟩

/-- Witness for claim C3's theorem on the empty batch: the draw is a
zero-instance no-op and the tick succeeds. -/
theorem c3_witness :
    normalTrace0.uploads = [([] : List InstanceData).length] ∧
    normalTrace0.commands = [Cmd.begin_render_pass 0 [0, 0, 0, 1],
                             Cmd.draw ([] : List InstanceData).length,
                             Cmd.end_render_pass] :=
  c3_one_draw_instance_count baseRenderer normalTickEnv [] submittedState
    normalTrace0 0 false rfl (by rfl)

/-- Claim C4, counterexample: a redraw call whose acquisition reports
out-of-date returns with the stored previous-frame future being the very
same value as before the call — not a fresh one. -/
theorem c4_counterexample_future_retained :
    Renderer.redraw baseRenderer recreateThenOutOfDateEnv [] =
      .ok ({ baseRenderer with recreate_swapchain := true },
           FrameTrace.empty) ∧
    ({ baseRenderer with recreate_swapchain := true } : Renderer).previous_frame_end
        = baseRenderer.previous_frame_end :=
  ⟨rfl, rfl⟩

/-- Claim C4 (amended): a redraw call that reaches submission (successful
acquisition) always stores a future distinct from the one held before the
call, provided stored future identities are below the freshness counter
(an invariant of all reachable states); the early-return path on an
out-of-date acquisition, however, leaves the stored future untouched. -/
theorem c4_future_fresh_on_submission (st : Renderer) (env : TickEnv)
    (data : List InstanceData) (st' : Renderer) (tr : FrameTrace)
    (hwf : ∀ f, st.previous_frame_end = some f →
      f.futId < st.nextFutureId)
    (hok : st.redraw env data = .ok (st', tr)) :
    (env.acquireResult = AcquireResult.outOfDate →
      st'.previous_frame_end = st.previous_frame_end) ∧
    (∀ i sub, env.acquireResult = AcquireResult.ok i sub →
      st'.previous_frame_end ≠ st.previous_frame_end) := by
  obtain ⟨⟨f, hf⟩, st1, hrec, hafter⟩ := redraw_ok_elim st env data st' tr hok
  obtain ⟨hprev, hnid⟩ := maybeRecreate_preserves st env st1 hrec
  constructor
  · intro hacq
    rw [afterAcquire_outOfDate st1 env data hacq, Except.ok.injEq,
        Prod.mk.injEq] at hafter
    rw [← hafter.1]
    exact hprev
  · intro i sub hacq
    rw [afterAcquire_acqOk st1 env data i sub hacq] at hafter
    have hn2 : (if sub then { st1 with recreate_swapchain := true }
        else st1).nextFutureId = st.nextFutureId := by
      cases sub
      · simpa using hnid
      · simpa using hnid
    obtain ⟨hfl1, hfl2, hfl3⟩ :=
      submitAndFlush_flush_cases _ env data i st' tr hafter
    have hg : ∃ g : GpuFutureT, st'.previous_frame_end = some g ∧
        g.futId = st.nextFutureId := by
      cases henvf : env.flushResult
      · exact ⟨_, (hfl1 henvf).1, hn2⟩
      · exact ⟨_, (hfl2 henvf).1, hn2⟩
      · exact ⟨_, (hfl3 henvf).1, hn2⟩
    obtain ⟨g, hg1, hg2⟩ := hg
    intro hEq
    rw [hEq, hf, Option.some.injEq] at hg1
    have hlt := hwf f hf
    rw [hg1, hg2] at hlt
    exact lt_irrefl _ hlt

/-- Witness for claim C4's amended theorem at a concrete input. -/
theorem c4_witness :
    submittedState.previous_frame_end ≠ baseRenderer.previous_frame_end :=
  (c4_future_fresh_on_submission baseRenderer normalTickEnv [] submittedState
    normalTrace0
    (fun f hf => by
      rw [show baseRenderer.previous_frame_end = some (GpuFutureT.now 0)
            from rfl,
          Option.some.injEq] at hf
      subst hf
      decide)
    (by rfl)).2 0 false rfl

/-- Claim C5: a redraw call whose acquisition succeeds but reports
suboptimal still records its command sequence, submits it and presents the
acquired image, and leaves the recreate flag set for the next tick. -/
theorem c5_suboptimal_still_presents (st : Renderer) (env : TickEnv)
    (data : List InstanceData) (st' : Renderer) (tr : FrameTrace) (i : ℕ)
    (hacq : env.acquireResult = AcquireResult.ok i true)
    (hok : st.redraw env data = .ok (st', tr)) :
    tr.submitted = true ∧
    tr.presented = some i ∧
    tr.commands = [Cmd.begin_render_pass i [0, 0, 0, 1],
                   Cmd.draw data.length, Cmd.end_render_pass] ∧
    st'.recreate_swapchain = true := by
  obtain ⟨-, st1, -, hafter⟩ := redraw_ok_elim st env data st' tr hok
  rw [afterAcquire_acqOk st1 env data i true hacq] at hafter
  obtain ⟨-, -, h3, h4, h5, -⟩ := submitAndFlush_ok_inv _ env data i st' tr hafter
  obtain ⟨hfl1, hfl2, hfl3⟩ := submitAndFlush_flush_cases _ env data i st' tr hafter
  refine ⟨h4, h5, h3, ?_⟩
  cases henvf : env.flushResult
  · exact ((hfl1 henvf).2.1).trans (by rfl)
  · exact (hfl2 henvf).2.1
  · exact ((hfl3 henvf).2.1).trans (by rfl)

/-- Witness for claim C5's theorem at a concrete input. -/
theorem c5_witness :
    normalTrace0.submitted = true ∧
    normalTrace0.presented = some 0 ∧
    normalTrace0.commands = [Cmd.begin_render_pass 0 [0, 0, 0, 1],
                             Cmd.draw ([] : List InstanceData).length,
                             Cmd.end_render_pass] ∧
    ({ baseRenderer with
       recreate_swapchain := true,
       previous_frame_end := some (GpuFutureT.fenceSignal 1),
       nextFutureId := 2 } : Renderer).recreate_swapchain = true :=
  c5_suboptimal_still_presents baseRenderer suboptimalTickEnv []
    { baseRenderer with
      recreate_swapchain := true,
      previous_frame_end := some (GpuFutureT.fenceSignal 1),
      nextFutureId := 2 }
    normalTrace0 0 rfl (by rfl)

/-- Claim C6: for a tick that acquires an image, whether redraw panics
does not depend on the flush outcome; and on a successful return, an
out-of-date flush sets the recreate flag and stores a fresh already
complete sync-now future, while any other flush error is logged in the
trace and likewise leads to a fresh sync-now future being stored. -/
theorem c6_flush_error_tolerated (st : Renderer) (env : TickEnv)
    (data : List InstanceData) (i : ℕ) (sub : Bool)
    (hacq : env.acquireResult = AcquireResult.ok i sub) :
    isOkE (st.redraw env data) =
      isOkE (st.redraw { env with flushResult := FlushResult.ok } data) ∧
    (∀ st' tr, st.redraw env data = .ok (st', tr) →
      (env.flushResult = FlushResult.outOfDate →
        st'.recreate_swapchain = true ∧
        st'.previous_frame_end = some (GpuFutureT.now st.nextFutureId)) ∧
      (env.flushResult = FlushResult.otherError →
        tr.loggedFlushError = true ∧
        st'.previous_frame_end = some (GpuFutureT.now st.nextFutureId))) := by
  have hmr : st.maybeRecreate { env with flushResult := FlushResult.ok } =
      st.maybeRecreate env := rfl
  constructor
  · cases hp : st.previous_frame_end with
    | none =>
      rw [redraw_none st env data hp,
          redraw_none st { env with flushResult := FlushResult.ok } data hp]
    | some f =>
      cases hm : st.maybeRecreate env with
      | error p =>
        rw [redraw_recreate_error st env data f p hp hm,
            redraw_recreate_error st { env with flushResult := FlushResult.ok }
              data f p hp (hmr.trans hm)]
      | ok st1 =>
        rw [redraw_eq_afterAcquire st env data f st1 hp hm,
            redraw_eq_afterAcquire st { env with flushResult := FlushResult.ok }
              data f st1 hp (hmr.trans hm),
            afterAcquire_acqOk st1 env data i sub hacq,
            afterAcquire_acqOk st1 { env with flushResult := FlushResult.ok }
              data i sub hacq,
            isOkE_submitAndFlush, isOkE_submitAndFlush]
  · intro st' tr hok
    obtain ⟨-, st1, hrec, hafter⟩ := redraw_ok_elim st env data st' tr hok
    obtain ⟨-, hnid⟩ := maybeRecreate_preserves st env st1 hrec
    rw [afterAcquire_acqOk st1 env data i sub hacq] at hafter
    have hn2 : (if sub then { st1 with recreate_swapchain := true }
        else st1).nextFutureId = st.nextFutureId := by
      cases sub
      · simpa using hnid
      · simpa using hnid
    obtain ⟨hfl1, hfl2, hfl3⟩ :=
      submitAndFlush_flush_cases _ env data i st' tr hafter
    constructor
    · intro hfe
      refine ⟨(hfl2 hfe).2.1, ?_⟩
      rw [(hfl2 hfe).1, hn2]
    · intro hfe
      refine ⟨(hfl3 hfe).2.2, ?_⟩
      rw [(hfl3 hfe).1, hn2]

/-- Witness for claim C6's theorem at a concrete input with an
out-of-date flush. -/
theorem c6_witness :
    ({ baseRenderer with
       recreate_swapchain := true,
       previous_frame_end := some (GpuFutureT.now 1),
       nextFutureId := 2 } : Renderer).recreate_swapchain = true ∧
    ({ baseRenderer with
       recreate_swapchain := true,
       previous_frame_end := some (GpuFutureT.now 1),
       nextFutureId := 2 } : Renderer).previous_frame_end =
      some (GpuFutureT.now baseRenderer.nextFutureId) :=
  ((c6_flush_error_tolerated baseRenderer flushOutOfDateEnv [] 0 false rfl).2
    { baseRenderer with
      recreate_swapchain := true,
      previous_frame_end := some (GpuFutureT.now 1),
      nextFutureId := 2 }
    normalTrace0 (by rfl)).1 rfl

/-- Claim C7: after any successful (non-skipped) recreation the swapchain
dimensions, every framebuffer's dimensions and the dynamic viewport's
dimensions equal the window inner size observed at that call, there is
exactly one framebuffer per swapchain image, the flag is cleared, and
recreating again with the same window size yields framebuffers of
identical dimensions. -/
theorem c7_recreation_matches_window (st : Renderer) (env : TickEnv)
    (n : ℕ) (st1 : Renderer)
    (hn : env.recreateResult = SwapchainCreationResult.ok n)
    (hok : st.recreateSwapchain env = .ok st1) :
    st1.swapchain.dimensions = env.inner_size ∧
    st1.framebuffers.length = st1.images.length ∧
    (∀ fb ∈ st1.framebuffers, fb.dimensions = env.inner_size) ∧
    (∀ vp, st1.viewports = some vp →
      vp.dimensions = ((env.inner_size.1 : ℚ), (env.inner_size.2 : ℚ))) ∧
    st1.recreate_swapchain = false ∧
    (∀ env2 m st2, env2.recreateResult = SwapchainCreationResult.ok m →
      env2.inner_size = env.inner_size →
      st1.recreateSwapchain env2 = .ok st2 →
      ∀ fb2 ∈ st2.framebuffers, ∀ fb1 ∈ st1.framebuffers,
        fb2.dimensions = fb1.dimensions) := by
  obtain ⟨hsw, him, hfb, hvp, hflag, -⟩ :=
    recreateSwapchain_ok_shape st env n st1 hn hok
  refine ⟨hsw, ?_, ?_, ?_, hflag, ?_⟩
  · rw [hfb, him, List.length_replicate, List.length_replicate]
  · intro fb hmem
    rw [hfb] at hmem
    rw [List.eq_of_mem_replicate hmem]
  · intro vp h
    rw [hvp, Option.some.injEq] at h
    rw [← h]
  · intro env2 m st2 hm2 hsz hok2 fb2 hfb2 fb1 hfb1
    obtain ⟨-, -, hfb2s, -, -, -⟩ :=
      recreateSwapchain_ok_shape st1 env2 m st2 hm2 hok2
    rw [hfb2s] at hfb2
    rw [hfb] at hfb1
    rw [List.eq_of_mem_replicate hfb2, List.eq_of_mem_replicate hfb1, hsz]

/-- Witness for claim C7's theorem at a concrete input. -/
theorem c7_witness :
    recreated640.swapchain.dimensions = recreateThenOutOfDateEnv.inner_size ∧
    recreated640.framebuffers.length = recreated640.images.length :=
  let h := c7_recreation_matches_window baseRenderer recreateThenOutOfDateEnv
    2 recreated640 rfl (by rfl)
  ⟨h.1, h.2.1⟩

/-- Claim C8, counterexample: update applies a single conditional wrap
step, so a state whose ship is at x = 10 still has x = 8 after one update,
outside [-1,1]; the claim as stated fails for arbitrary game states. -/
theorem c8_counterexample_single_wrap :
    (update (fun r => r) (fun _ => 0) (fun _ => 0) farGameState).x = 8 ∧
    ¬((update (fun r => r) (fun _ => 0) (fun _ => 0) farGameState).x ≤ 1) := by
  have h : (update (fun r => r) (fun _ => 0) (fun _ => 0) farGameState).x = 8 := by
    simp [update, farGameState, wrap, stepAngle]
    norm_num
  refine ⟨h, ?_⟩
  rw [h]
  norm_num

/-- Claim C8 (amended): after one update the ship's and every asteroid's
position coordinates lie in [-1,1], provided each coordinate lay in
[-1,1] before the call and the velocity components are bounded (by
2 - 0.0005 for the ship, which may still accelerate by at most 0.0005
this tick, and by 2 for asteroids), with the trigonometric collaborators
bounded by 1 in absolute value; without such bounds the single wrap step
cannot reach [-1,1] (see the counterexample at x = 10). -/
theorem c8_update_wraps_bounded_states (toRad sinq cosq : ℚ → ℚ)
    (st : GameState)
    (hsin : ∀ r, -1 ≤ sinq r ∧ sinq r ≤ 1)
    (hcos : ∀ r, -1 ≤ cosq r ∧ cosq r ≤ 1)
    (hx1 : -1 ≤ st.x) (hx2 : st.x ≤ 1)
    (hy1 : -1 ≤ st.y) (hy2 : st.y ≤ 1)
    (hvx1 : -(2 - 1/2000) ≤ st.vel_x) (hvx2 : st.vel_x ≤ 2 - 1/2000)
    (hvy1 : -(2 - 1/2000) ≤ st.vel_y) (hvy2 : st.vel_y ≤ 2 - 1/2000)
    (hast : ∀ a ∈ st.asteroids,
      (-1 ≤ a.x ∧ a.x ≤ 1) ∧ (-1 ≤ a.y ∧ a.y ≤ 1) ∧
      (-2 ≤ a.vel_x ∧ a.vel_x ≤ 2) ∧ (-2 ≤ a.vel_y ∧ a.vel_y ≤ 2)) :
    (-1 ≤ (update toRad sinq cosq st).x ∧ (update toRad sinq cosq st).x ≤ 1) ∧
    (-1 ≤ (update toRad sinq cosq st).y ∧ (update toRad sinq cosq st).y ≤ 1) ∧
    ∀ a ∈ (update toRad sinq cosq st).asteroids,
      (-1 ≤ a.x ∧ a.x ≤ 1) ∧ (-1 ≤ a.y ∧ a.y ≤ 1) := by
  unfold update
  dsimp only
  refine ⟨?_, ?_, ?_⟩
  · have hb := vel_bound st.vel_x
      (sinq (toRad (stepAngle st.rot st.angle))) st.accel hvx1 hvx2
      (hsin (toRad (stepAngle st.rot st.angle))).1
      (hsin (toRad (stepAngle st.rot st.angle))).2
    exact wrap_mem_Icc _ (by linarith [hb.1, hb.2]) (by linarith [hb.1, hb.2])
  · have hb := vel_bound st.vel_y
      (cosq (toRad (stepAngle st.rot st.angle))) st.accel hvy1 hvy2
      (hcos (toRad (stepAngle st.rot st.angle))).1
      (hcos (toRad (stepAngle st.rot st.angle))).2
    exact wrap_mem_Icc _ (by linarith [hb.1, hb.2]) (by linarith [hb.1, hb.2])
  · intro b hbmem
    rw [List.mem_map] at hbmem
    obtain ⟨a, ha, rfl⟩ := hbmem
    obtain ⟨⟨hax1, hax2⟩, ⟨hay1, hay2⟩, ⟨havx1, havx2⟩, ⟨havy1, havy2⟩⟩ :=
      hast a ha
    dsimp only
    exact ⟨wrap_mem_Icc _ (by linarith) (by linarith),
           wrap_mem_Icc _ (by linarith) (by linarith)⟩

/-- Witness for claim C8's amended theorem at the initial game state of
main. -/
theorem c8_witness :
    (-1 ≤ (update (fun r => r) (fun _ => 0) (fun _ => 0) initGameState).x ∧
      (update (fun r => r) (fun _ => 0) (fun _ => 0) initGameState).x ≤ 1) ∧
    (-1 ≤ (update (fun r => r) (fun _ => 0) (fun _ => 0) initGameState).y ∧
      (update (fun r => r) (fun _ => 0) (fun _ => 0) initGameState).y ≤ 1) ∧
    ∀ a ∈ (update (fun r => r) (fun _ => 0) (fun _ => 0) initGameState).asteroids,
      (-1 ≤ a.x ∧ a.x ≤ 1) ∧ (-1 ≤ a.y ∧ a.y ≤ 1) :=
  c8_update_wraps_bounded_states (fun r => r) (fun _ => 0) (fun _ => 0)
    initGameState
    (fun r => by norm_num) (fun r => by norm_num)
    (by norm_num [initGameState]) (by norm_num [initGameState])
    (by norm_num [initGameState]) (by norm_num [initGameState])
    (by norm_num [initGameState]) (by norm_num [initGameState])
    (by norm_num [initGameState]) (by norm_num [initGameState])
    (by
      intro a ha
      norm_num [initGameState] at ha
      subst ha
      norm_num)

/-- Claim C9: the stored previous-frame future is Some after construction
and stays Some across every successful redraw return; given that
invariant, the unwraps of that Option inside redraw cannot panic (redraw
never returns the none-unwrap panic). -/
theorem c9_previous_future_always_some (st : Renderer) (env : TickEnv)
    (data : List InstanceData)
    (hsome : st.previous_frame_end.isSome = true) :
    st.redraw env data ≠ .error RPanic.noneUnwrap ∧
    (∀ st' tr, st.redraw env data = .ok (st', tr) →
      st'.previous_frame_end.isSome = true) ∧
    (∀ ws n st0, Renderer.new ws n = some st0 →
      st0.previous_frame_end.isSome = true) := by
  obtain ⟨f, hf⟩ := Option.isSome_iff_exists.mp hsome
  refine ⟨?_, ?_, ?_⟩
  · cases hm : st.maybeRecreate env with
    | error p =>
      rw [redraw_recreate_error st env data f p hf hm]
      intro hEq
      rw [Except.error.injEq] at hEq
      rcases maybeRecreate_error_cases st env p hm with h | h <;>
        · rw [h] at hEq
          exact absurd hEq (by decide)
    | ok st1 =>
      rw [redraw_eq_afterAcquire st env data f st1 hf hm]
      intro hEq
      rcases afterAcquire_error_cases st1 env data RPanic.noneUnwrap hEq
          with h | h <;>
        exact absurd h (by decide)
  · intro st' tr hok
    obtain ⟨-, st1, hrec, hafter⟩ := redraw_ok_elim st env data st' tr hok
    obtain ⟨hprev, -⟩ := maybeRecreate_preserves st env st1 hrec
    cases hacq : env.acquireResult with
    | otherError =>
      rw [show st1.afterAcquire env data = .error RPanic.acquireFailed from by
            simp [Renderer.afterAcquire, hacq]] at hafter
      exact absurd hafter (by simp)
    | outOfDate =>
      rw [afterAcquire_outOfDate st1 env data hacq, Except.ok.injEq,
          Prod.mk.injEq] at hafter
      rw [← hafter.1]
      simp [hprev, hf]
    | ok i sub =>
      rw [afterAcquire_acqOk st1 env data i sub hacq] at hafter
      obtain ⟨hfl1, hfl2, hfl3⟩ :=
        submitAndFlush_flush_cases _ env data i st' tr hafter
      cases henvf : env.flushResult
      · simp [(hfl1 henvf).1]
      · simp [(hfl2 henvf).1]
      · simp [(hfl3 henvf).1]
  · intro ws n st0 h
    unfold Renderer.new at h
    dsimp only at h
    split at h
    · exact absurd h (by simp)
    · rw [Option.some.injEq] at h
      subst h
      rfl

/-- Witness for claim C9's theorem at a concrete input. -/
theorem c9_witness : submittedState.previous_frame_end.isSome = true :=
  (c9_previous_future_always_some baseRenderer normalTickEnv [] rfl).2.1
    submittedState normalTrace0 (by rfl)

/-- Claim C10: render always returns exactly two batches; the first holds
one instance at the ship's position and angle with scale 0.05, the second
holds one instance per asteroid in list order, each at the asteroid's
position and angle with scale 0.1. -/
theorem c10_render_two_batches (st : GameState) (k : ℕ) :
    (render st).length = 2 ∧
    (render st)[0]? =
      some [{ pos_offset := (st.x, st.y), angle := st.angle,
              scale := 0.05 }] ∧
    ((render st)[1]?).map List.length = some st.asteroids.length ∧
    ((render st)[1]?).bind (fun b => b[k]?) =
      (st.asteroids[k]?).map (fun a =>
        { pos_offset := (a.x, a.y), angle := a.angle, scale := 0.1 }) := by
  unfold render
  dsimp only
  refine ⟨rfl, rfl, ?_, ?_⟩
  · simp
  · simp [List.getElem?_map]
